import Mathlib

/-!
Shallow embedding of the chess rules engine of this repository.

Two iterations of the engine are in the sources: src/script.js and the
second section of src/unnamed/part_000 (the part after the separator,
whose functions the claims cite by line numbers 892 onward).  The DOM /
rendering calls (createBoard, movePieceElement, modal handling, css) are
out of scope per spec section 1; only the logical state (VIRTUAL_BOARD,
ATTACK_BOARD, GameState) and the functions acting on it are modelled.

Namespace S holds the script.js versions, namespace P holds the
part_000 versions; helpers that are textually identical in both sources
live at the root.  JavaScript numbers used as board indices are
modelled as Int (they can go negative), the 8x8 arrays as total
functions on Int pairs (concrete boards are none / unattacked outside
the 0..7 range), and JS exceptions (TypeError / ReferenceError paths)
as Option results.  Loops whose guard is isValidBoardPosition are given
fuel 8, which is exact: a ray starting on the board visits at most 8
squares before the guard fails.
-/

namespace Chess

/-- Piece colours, the strings "white" / "black" of the source. -/
inductive Color where
  | white
  | black
deriving DecidableEq

/-- The ternary `color === "white" ? "black" : "white"` used throughout. -/
def Color.opponent : Color → Color
  | .white => .black
  | .black => .white

/-- The six `type` strings of PIECE_TYPES. -/
inductive PieceType where
  | pawn
  | rook
  | knight
  | bishop
  | queen
  | king
deriving DecidableEq

/-- A piece object; of the JS fields {name, type, positions, color, symbol, pathImg}
only `type` and `color` are read by the game logic (the `positions` cache is
written but the board is always consulted instead, and name/symbol/pathImg are
display only). -/
structure Piece where
  type : PieceType
  color : Color
deriving DecidableEq

/-- A [row, col] pair.  Int because JS arithmetic can leave the 0..7 range. -/
abbrev Pos := Int × Int

/-- VIRTUAL_BOARD: a cell holds null or a piece. -/
abbrev Board := Pos → Option Piece

/-- ATTACK_BOARD: each cell is a Set of colours; modelled as its membership test. -/
abbrev AttackFn := Pos → Color → Bool

/-- Write one cell of the virtual board. -/
def setBoard (b : Board) (p : Pos) (v : Option Piece) : Board :=
  fun q => if q = p then v else b q

/-- initializeAttackBoard(): every cell an empty Set. -/
def emptyAttackBoard : AttackFn := fun _ _ => false

/-- ATTACK_BOARD[p].add(c). -/
def addAttack (a : AttackFn) (p : Pos) (c : Color) : AttackFn :=
  fun q col => if q = p ∧ col = c then true else a q col

/-- The lastPawnDoubleMove object {name, color, positions}; `name` is never read. -/
structure LastDouble where
  color : Color
  positions : List Pos
deriving DecidableEq

/-- The logical part of GameState / GAME_STATE: the board, the attack board and
the scalar fields the engine reads.  selectedPiece and the check/checkmate
flags only drive the UI flow and are omitted. -/
structure GState where
  board : Board
  attack : AttackFn
  currentPlayer : Color
  kingWhite : Pos
  kingBlack : Pos
  lastPawnDoubleMove : Option LastDouble
  enPassantPosition : Option Pos
  promotionPending : Option (Pos × Pos)

/-- kingPositions[color]. -/
def GState.kingPos (s : GState) (c : Color) : Pos :=
  match c with
  | .white => s.kingWhite
  | .black => s.kingBlack

/-- kingPositions[color] = p. -/
def GState.setKing (s : GState) (c : Color) (p : Pos) : GState :=
  match c with
  | .white => { s with kingWhite := p }
  | .black => { s with kingBlack := p }

/-- isValidBoardPosition(row, col). -/
def isValidBoardPosition (row col : Int) : Bool :=
  decide (0 ≤ row) && decide (row < 8) && decide (0 ≤ col) && decide (col < 8)

/-- getPiecePositionOnVirtualBoard(position): false (here none) when off board. -/
def getPiecePositionOnVirtualBoard (b : Board) (pos : Pos) : Option Piece :=
  if isValidBoardPosition pos.1 pos.2 then b pos else none

/-- hasPieceAtPosition(position): false when off board. -/
def hasPieceAtPosition (b : Board) (pos : Pos) : Bool :=
  if isValidBoardPosition pos.1 pos.2 then (b pos).isSome else false

/-- The while loop of getSlidingMoves: push the square, stop after an occupied one. -/
def slideAttackRay (b : Board) (fuel : Nat) (x y dx dy : Int) : List Pos :=
  match fuel with
  | 0 => []
  | Nat.succ f =>
    if isValidBoardPosition x y then
      (x, y) :: (if (b (x, y)).isSome then [] else slideAttackRay b f (x + dx) (y + dy) dx dy)
    else []

/-- getSlidingMoves(position, directions). -/
def getSlidingMoves (b : Board) (pos : Pos) (dirs : List (Int × Int)) : List Pos :=
  dirs.foldl (fun ms d => ms ++ slideAttackRay b 8 (pos.1 + d.1) (pos.2 + d.2) d.1 d.2) []

/-- getAttackingMoves(position, piece); identical in both sources. -/
def getAttackingMoves (b : Board) (pos : Pos) (piece : Piece) : List Pos :=
  match piece.type with
  | .pawn =>
    let dir : Int := if piece.color = .white then -1 else 1
    ([(pos.1 + dir, pos.2 - 1), (pos.1 + dir, pos.2 + 1)] : List Pos).filter
      (fun q => isValidBoardPosition q.1 q.2)
  | .rook => getSlidingMoves b pos [(1, 0), (-1, 0), (0, 1), (0, -1)]
  | .bishop => getSlidingMoves b pos [(1, 1), (-1, -1), (1, -1), (-1, 1)]
  | .queen =>
    getSlidingMoves b pos [(1, 0), (-1, 0), (0, 1), (0, -1), (1, 1), (-1, -1), (1, -1), (-1, 1)]
  | .knight =>
    ([(pos.1 - 2, pos.2 - 1), (pos.1 - 2, pos.2 + 1), (pos.1 + 2, pos.2 - 1),
      (pos.1 + 2, pos.2 + 1), (pos.1 - 1, pos.2 - 2), (pos.1 - 1, pos.2 + 2),
      (pos.1 + 1, pos.2 - 2), (pos.1 + 1, pos.2 + 2)] : List Pos).filter
      (fun q => isValidBoardPosition q.1 q.2)
  | .king =>
    ([(pos.1 - 1, pos.2), (pos.1 + 1, pos.2), (pos.1, pos.2 - 1), (pos.1, pos.2 + 1),
      (pos.1 - 1, pos.2 - 1), (pos.1 - 1, pos.2 + 1), (pos.1 + 1, pos.2 - 1),
      (pos.1 + 1, pos.2 + 1)] : List Pos).filter
      (fun q => isValidBoardPosition q.1 q.2)

/-- The row-major list of the 64 board squares. -/
def squares8 : List Pos :=
  (List.range 8).foldl
    (fun acc r => acc ++ (List.range 8).map (fun c => ((r : Int), (c : Int)))) []

/-- updateAttackBoardPosition() of part_000: rebuild ATTACK_BOARD from scratch by
iterating every occupied square and adding the piece's colour to each square of
its getAttackingMoves.  (script.js declares the same Set-based ATTACK_BOARD but
contains no function that ever writes it.) -/
def updateAttackBoardPosition (b : Board) : AttackFn :=
  squares8.foldl
    (fun acc q =>
      match b q with
      | none => acc
      | some piece =>
        (getAttackingMoves b q piece).foldl (fun a2 t => addAttack a2 t piece.color) acc)
    emptyAttackBoard

/-- isKingInCheck(color): ATTACK_BOARD[kr][kc].has(opponent); identical in both sources. -/
def isKingInCheck (s : GState) (color : Color) : Bool :=
  s.attack (s.kingPos color) color.opponent

/-- INITIAL_POSITIONS: the expanded-FEN start position. -/
def INITIAL_POSITIONS : List (List Char) :=
  ["rnbqkbnr".toList, "pppppppp".toList, "........".toList, "........".toList,
   "........".toList, "........".toList, "PPPPPPPP".toList, "RNBQKBNR".toList]

/-- All squares whose FEN character is ch, in the row-major scan order of the source. -/
def fenPositionsOf (ch : Char) : List Pos :=
  INITIAL_POSITIONS.enum.foldl
    (fun acc rrow =>
      acc ++ rrow.2.enum.filterMap
        (fun ccell =>
          if ccell.2 = ch then some ((rrow.1 : Int), (ccell.1 : Int)) else none))
    []

/-- getInitialPositionFromFEN(pieceChar): first match of the row-major scan. -/
def getInitialPositionFromFEN (ch : Char) : Option Pos :=
  (fenPositionsOf ch).head?

/-- isKingInInitialPosition(color): compares the cached king square with the
FEN-derived home square (square equality, not a moved flag). -/
def isKingInInitialPosition (s : GState) (color : Color) : Bool :=
  let kingChar := if color = .white then 'K' else 'k'
  match getInitialPositionFromFEN kingChar with
  | some ip => decide (ip.1 = (s.kingPos color).1 ∧ ip.2 = (s.kingPos color).2)
  | none => false

/-- isRookInInitialPosition(color, side): checks that the board still holds a rook
of that colour on the FEN home square of the chosen side. -/
def isRookInInitialPosition (b : Board) (color : Color) (isKingside : Bool) : Bool :=
  let rookChar := if color = .white then 'R' else 'r'
  let positionsR := fenPositionsOf rookChar
  if positionsR.length ≠ 2 then false
  else
    match (if isKingside then positionsR.get? 1 else positionsR.get? 0) with
    | some rookPos =>
      match b rookPos with
      | some piece => decide (piece.type = .rook ∧ piece.color = color)
      | none => false
    | none => false

/-- Translation of one FEN character into a piece type. -/
def typeOfFENChar (ch : Char) : Option PieceType :=
  if ch = 'p' then some .pawn
  else if ch = 'r' then some .rook
  else if ch = 'n' then some .knight
  else if ch = 'b' then some .bishop
  else if ch = 'q' then some .queen
  else if ch = 'k' then some .king
  else none

/-- createPiecesWithFEN cell translation: uppercase white, lowercase black, dot empty. -/
def pieceOfFENChar (ch : Char) : Option Piece :=
  match typeOfFENChar ch.toLower with
  | some t => some ⟨t, if ch.isUpper then .white else .black⟩
  | none => none

/-- The VIRTUAL_BOARD that startGame / addPieces builds from INITIAL_POSITIONS. -/
def initialBoard : Board := fun q =>
  if isValidBoardPosition q.1 q.2 then
    match INITIAL_POSITIONS.get? q.1.toNat with
    | some rowChars =>
      match rowChars.get? q.2.toNat with
      | some ch => pieceOfFENChar ch
      | none => none
    | none => none
  else none

/-- The GameState right after startGame(): white to move, kings on e1 / e8, no
en-passant data, no pending promotion, ATTACK_BOARD fresh from
initializeAttackBoard (script.js never writes it afterwards). -/
def initialState : GState :=
  { board := initialBoard
    attack := emptyAttackBoard
    currentPlayer := .white
    kingWhite := (7, 4)
    kingBlack := (0, 4)
    lastPawnDoubleMove := none
    enPassantPosition := none
    promotionPending := none }

/-- The inner while loop of getRookMove / getBishopMove / getKnightMove: empty
squares are pushed and the walk continues; an occupied square is pushed only
when it holds the opposite colour, and the walk stops. -/
def slideCaptureRay (b : Board) (myColor : Color) (fuel : Nat) (x y dx dy : Int) : List Pos :=
  match fuel with
  | 0 => []
  | Nat.succ f =>
    if isValidBoardPosition x y then
      match getPiecePositionOnVirtualBoard b (x, y) with
      | none => (x, y) :: slideCaptureRay b myColor f (x + dx) (y + dy) dx dy
      | some t => if t.color = myColor then [] else [(x, y)]
    else []

/-- getRookMove(position); identical in both sources. -/
def getRookMove (b : Board) (pos : Pos) : List Pos :=
  match getPiecePositionOnVirtualBoard b pos with
  | none => []
  | some piece =>
    ([((0 : Int), (1 : Int)), (0, -1), (1, 0), (-1, 0)] : List (Int × Int)).foldl
      (fun ms d => ms ++ slideCaptureRay b piece.color 8 (pos.1 + d.1) (pos.2 + d.2) d.1 d.2)
      []

/-- getBishopMove(position); identical in both sources. -/
def getBishopMove (b : Board) (pos : Pos) : List Pos :=
  match getPiecePositionOnVirtualBoard b pos with
  | none => []
  | some piece =>
    ([((1 : Int), (1 : Int)), (1, -1), (-1, 1), (-1, -1)] : List (Int × Int)).foldl
      (fun ms d => ms ++ slideCaptureRay b piece.color 8 (pos.1 + d.1) (pos.2 + d.2) d.1 d.2)
      []

/-- getQueenMove(position): rook moves followed by bishop moves. -/
def getQueenMove (b : Board) (pos : Pos) : List Pos :=
  getRookMove b pos ++ getBishopMove b pos

/-- getKnightMove(position); identical in both sources. -/
def getKnightMove (b : Board) (pos : Pos) : List Pos :=
  match getPiecePositionOnVirtualBoard b pos with
  | none => []
  | some piece =>
    ([((-2 : Int), (-1 : Int)), (-2, 1), (-1, -2), (-1, 2),
      (1, -2), (1, 2), (2, -1), (2, 1)] : List (Int × Int)).filterMap
      (fun d =>
        let q : Pos := (pos.1 + d.1, pos.2 + d.2)
        if isValidBoardPosition q.1 q.2 then
          match getPiecePositionOnVirtualBoard b q with
          | none => some q
          | some t => if t.color = piece.color then none else some q
        else none)

namespace S

/-- canEnPassant(fromPosition) of script.js: reads lastPawnDoubleMove, does not
check that the landing square is empty and mutates nothing. -/
def canEnPassant (b : Board) (lastD : Option LastDouble) (pos : Pos) : List Pos :=
  match getPiecePositionOnVirtualBoard b pos with
  | none => []
  | some pawnPc =>
    if pawnPc.type ≠ .pawn then []
    else
      match lastD with
      | none => []
      | some ld =>
        let dir : Int := if pawnPc.color = .white then -1 else 1
        let enPassantRow : Int := if pawnPc.color = .white then 3 else 4
        if pos.1 ≠ enPassantRow then []
        else
          ([pos.2 - 1, pos.2 + 1] : List Int).filterMap
            (fun adjCol =>
              if isValidBoardPosition pos.1 adjCol then
                match getPiecePositionOnVirtualBoard b (pos.1, adjCol) with
                | some adj =>
                  if adj.type = .pawn ∧ adj.color ≠ pawnPc.color ∧
                      (pos.1, adjCol) ∈ ld.positions
                  then some (pos.1 + dir, adjCol)
                  else none
                | none => none
              else none)

/-- getPawnMove(position) of script.js: simple advance (guarded only by
hasPieceAtPosition, which is false off the board), double advance from the
starting rank, bounds-checked diagonal captures, then the en-passant squares. -/
def getPawnMove (b : Board) (lastD : Option LastDouble) (pos : Pos) : List Pos :=
  match getPiecePositionOnVirtualBoard b pos with
  | none => []
  | some pc =>
    let color := pc.color
    let dir : Int := if color = .white then -1 else 1
    let forwardMoves : List Pos :=
      if hasPieceAtPosition b (pos.1 + dir, pos.2) then []
      else
        (pos.1 + dir, pos.2) ::
          (let initialRow : Int := if color = .white then 6 else 1
           if pos.1 = initialRow ∧ hasPieceAtPosition b (pos.1 + 2 * dir, pos.2) = false then
             [(pos.1 + 2 * dir, pos.2)]
           else [])
    let diagMoves : List Pos :=
      ([(pos.1 + dir, pos.2 - 1), (pos.1 + dir, pos.2 + 1)] : List Pos).filter
        (fun q =>
          isValidBoardPosition q.1 q.2 &&
            match getPiecePositionOnVirtualBoard b q with
            | some t => decide (t.color ≠ color)
            | none => false)
    forwardMoves ++ diagMoves ++ canEnPassant b lastD pos

/-- canCastle(fromPosition, toPosition, color) of script.js: home-square checks
for king and rook, empty squares between them, king not in check against the
current ATTACK_BOARD, and the king path unattacked by the opponent. -/
def canCastle (s : GState) (fromP toP : Pos) (color : Color) : Bool :=
  let fromCol := fromP.2
  let row : Int := if color = .white then 7 else 0
  let isKingside := decide (fromCol < toP.2)
  if ! isKingInInitialPosition s color then false
  else if ! isRookInInitialPosition s.board color isKingside then false
  else
    let intermediateCols : List Int :=
      if isKingside then [fromCol + 1, fromCol + 2]
      else [fromCol - 3, fromCol - 2, fromCol - 1]
    if ! intermediateCols.all (fun col => (s.board (row, col)).isNone) then false
    else if isKingInCheck s color then false
    else
      let kingPathCols : List Int :=
        if isKingside then [fromCol, fromCol + 1, fromCol + 2]
        else [fromCol, fromCol - 1, fromCol - 2]
      kingPathCols.all (fun col => ! s.attack (row, col) color.opponent)

/-- getKingMove(position) of script.js: the eight neighbour squares not occupied
by an own piece, then [row, 6] when kingside castling is approved and [row, 2]
when queenside castling is approved. -/
def getKingMove (s : GState) (pos : Pos) : List Pos :=
  match getPiecePositionOnVirtualBoard s.board pos with
  | none => []
  | some piece =>
    let normal : List Pos :=
      ([((-1 : Int), (-1 : Int)), (-1, 0), (-1, 1), (0, -1), (0, 1),
        (1, -1), (1, 0), (1, 1)] : List (Int × Int)).filterMap
        (fun d =>
          let q : Pos := (pos.1 + d.1, pos.2 + d.2)
          if isValidBoardPosition q.1 q.2 then
            match getPiecePositionOnVirtualBoard s.board q with
            | none => some q
            | some t => if t.color = piece.color then none else some q
          else none)
    let m1 := if canCastle s pos (pos.1, 6) piece.color then normal ++ [(pos.1, 6)] else normal
    if canCastle s pos (pos.1, 2) piece.color then m1 ++ [(pos.1, 2)] else m1

/-- getPossibleMoves(position, piece) of script.js. -/
def getPossibleMoves (s : GState) (pos : Pos) (piece : Piece) : List Pos :=
  match piece.type with
  | .pawn => getPawnMove s.board s.lastPawnDoubleMove pos
  | .rook => getRookMove s.board pos
  | .knight => getKnightMove s.board pos
  | .bishop => getBishopMove s.board pos
  | .queen => getQueenMove s.board pos
  | .king => getKingMove s pos

/-- isValidateMove(fromPosition, toPosition, piece): membership of the
destination in getPossibleMoves; identical in both sources. -/
def isValidateMove (s : GState) (fromP toP : Pos) (piece : Piece) : Bool :=
  decide (toP ∈ getPossibleMoves s fromP piece)

/-- isMoveSafe(fromPosition, toPosition, color) of script.js: save the two board
cells and the king square, play the move on VIRTUAL_BOARD, move the cached king
square when a king moves, test isKingInCheck (against the ATTACK_BOARD as it
stands: script.js contains no code that rebuilds it), then put everything back.
Returns none for the TypeError the source raises when the from square is empty
(originalPiece.type on null); every caller guards that case. -/
def isMoveSafe (s : GState) (fromP toP : Pos) (color : Color) :
    Option (Bool × GState) :=
  match s.board fromP with
  | none => none
  | some op =>
    let capturedPiece := s.board toP
    let originalKingPosition := s.kingPos color
    let s1 : GState := { s with board := setBoard (setBoard s.board fromP none) toP (some op) }
    let s2 := if op.type = .king then s1.setKing color toP else s1
    let kingIsInCheck := isKingInCheck s2 color
    let s3 : GState :=
      { s2 with board := setBoard (setBoard s2.board fromP (some op)) toP capturedPiece }
    let s4 := if op.type = .king then s3.setKing color originalKingPosition else s3
    some (! kingIsInCheck, s4)

/-- setLastPawnDoubleMove(fromPosition, toPosition, piece) of script.js: on a
double advance from the starting rank it records lastPawnDoubleMove and sets
enPassantPosition to the landing square; it never clears either field. -/
def setLastPawnDoubleMove (s : GState) (fromP toP : Pos) (piece : Piece) : GState :=
  if piece.type ≠ .pawn then s
  else
    let initialRow : Int := if piece.color = .white then 6 else 1
    if fromP.1 = initialRow ∧ (toP.1 - fromP.1).natAbs = 2 ∧ fromP.2 = toP.2 then
      { s with lastPawnDoubleMove := some ⟨piece.color, [toP]⟩,
               enPassantPosition := some toP }
    else s

/-- removePawnEnPassant(toPosition) of script.js: when the landing square sits
right behind the recorded double-moved pawn, that pawn's cell is emptied and the
en-passant state cleared.  Called only through handleEnPassant. -/
def removePawnEnPassant (s : GState) (toP : Pos) : GState :=
  match s.lastPawnDoubleMove with
  | none => s
  | some last =>
    let dir : Int := if s.currentPlayer = .white then -1 else 1
    let captured : Pos := (toP.1 - dir, toP.2)
    if captured ∈ last.positions then
      { s with board := setBoard s.board captured none,
               lastPawnDoubleMove := none,
               enPassantPosition := none }
    else s

/-- handleEnPassant(fromPosition, toPosition) of script.js. -/
def handleEnPassant (s : GState) (fromP toP : Pos) : GState :=
  if toP ∈ canEnPassant s.board s.lastPawnDoubleMove fromP then removePawnEnPassant s toP
  else s

/-- executeMove(fromPosition, toPosition, piece) of script.js.  Steps in source
order: setLastPawnDoubleMove; captureOpponentPiecesIfExists and
movePieceElement (DOM only - the virtual-board capture happens implicitly when
the destination cell is overwritten); updateVirutualBoardPosition;
setKingPosition; step 5 "Atualiza tabuleiro de ataque" is a TODO comment and
does nothing; isKingInCheck(opponent) is evaluated read-only for the modal;
toggleCurrentPlayer. -/
def executeMove (s : GState) (fromP toP : Pos) (piece : Piece) : GState :=
  let s1 := setLastPawnDoubleMove s fromP toP piece
  let s2 : GState := { s1 with board := setBoard (setBoard s1.board fromP none) toP (some piece) }
  let s3 := if piece.type = .king then s2.setKing piece.color toP else s2
  { s3 with currentPlayer := s3.currentPlayer.opponent }

/-- validateMove(fromPosition, toPosition) of script.js, the whole attempt
pipeline.  Rejections return the state unchanged (the modals are DOM only).
The approved-castle branch calls executeCastle, whose first statement invokes
updateVirtualBoardPosition - a name script.js never defines (the defined
function is updateVirutualBoardPosition), so that branch throws a
ReferenceError before mutating any logical state: modelled as none.  A pawn
reaching row 0 or 7 makes promptPawnPromotion open the choice modal and return
true, so the function returns before executeMove: the move stays uncommitted. -/
def validateMove (s : GState) (fromP toP : Pos) : Option GState :=
  match getPiecePositionOnVirtualBoard s.board fromP with
  | none => some s
  | some piece =>
    if ! isValidateMove s fromP toP piece then some s
    else
      match isMoveSafe s fromP toP s.currentPlayer with
      | none => none
      | some (saf, s1) =>
        if ! saf then some s1
        else if piece.type = .king ∧ (toP.2 - fromP.2).natAbs = 2 then
          if isKingInInitialPosition s1 piece.color ∧ canCastle s1 fromP toP piece.color
          then none
          else some s1
        else
          let s2 := if piece.type = .pawn then handleEnPassant s1 fromP toP else s1
          if piece.type = .pawn ∧ (toP.1 = 0 ∨ toP.1 = 7) then some s2
          else some (executeMove s2 fromP toP piece)

/-- promotePawn(pieceKey, fromPosition, toPosition) of script.js: executes the
move with a fresh piece of the chosen kind and the current player's colour,
then replacePieceAtPosition writes that piece to the destination cell.  The
final isKingInCheck(color) branch interpolates the undefined identifier
opponentColor into the modal message, a ReferenceError: modelled as none. -/
def promotePawn (s : GState) (kind : PieceType) (fromP toP : Pos) : Option GState :=
  let color := s.currentPlayer
  let s1 := executeMove s fromP toP ⟨kind, color⟩
  let s2 : GState := { s1 with board := setBoard s1.board toP (some ⟨kind, color⟩) }
  if isKingInCheck s2 color then none else some s2

/-- isCheckmate(color) of script.js: the body is the comment
"TODO ~ Implementar xeque-mate"; the function returns undefined. -/
def isCheckmate (_color : Color) : Option Bool := none

end S

namespace P

/-- isMoveSafe(fromPosition, toPosition, player) of part_000 (second section,
lines 1526-1559): save the two board cells, play the move on VIRTUAL_BOARD,
move the cached king square when a king moves, call updateAttackBoardPosition()
to rebuild ATTACK_BOARD from the simulated board, test isKingInCheck, then
restore VIRTUAL_BOARD and kingPositions (to [fromRow, fromCol]); the rebuilt
ATTACK_BOARD is left in place.  none models the TypeError on an empty from
square, as in the script.js variant. -/
def isMoveSafe (s : GState) (fromP toP : Pos) (player : Color) :
    Option (Bool × GState) :=
  match s.board fromP with
  | none => none
  | some op =>
    let capturedPiece := s.board toP
    let s1 : GState := { s with board := setBoard (setBoard s.board fromP none) toP (some op) }
    let s2 := if op.type = .king then s1.setKing player toP else s1
    let s2a : GState := { s2 with attack := updateAttackBoardPosition s2.board }
    let kingIsInCheck := isKingInCheck s2a player
    let s3 : GState :=
      { s2a with board := setBoard (setBoard s2a.board fromP (some op)) toP capturedPiece }
    let s4 := if op.type = .king then s3.setKing player fromP else s3
    some (! kingIsInCheck, s4)

/-- canCastle(fromPosition, toPosition, color) of part_000 (second section):
first rebuilds ATTACK_BOARD via updateAttackBoardPosition(), then performs the
same checks as the script.js version against the rebuilt board.  The rebuilt
ATTACK_BOARD stays in the state, hence a pair is returned. -/
def canCastle (s : GState) (fromP toP : Pos) (color : Color) : Bool × GState :=
  let s0 : GState := { s with attack := updateAttackBoardPosition s.board }
  let fromCol := fromP.2
  let row : Int := if color = .white then 7 else 0
  let isKingside := decide (fromCol < toP.2)
  let ok :=
    if ! isKingInInitialPosition s0 color then false
    else if ! isRookInInitialPosition s0.board color isKingside then false
    else
      let intermediateCols : List Int :=
        if isKingside then [fromCol + 1, fromCol + 2]
        else [fromCol - 3, fromCol - 2, fromCol - 1]
      if ! intermediateCols.all (fun col => (s0.board (row, col)).isNone) then false
      else if isKingInCheck s0 color then false
      else
        let kingPathCols : List Int :=
          if isKingside then [fromCol, fromCol + 1, fromCol + 2]
          else [fromCol, fromCol - 1, fromCol - 2]
        kingPathCols.all (fun col => ! s0.attack (row, col) color.opponent)
  (ok, s0)

/-- getKingMove(position) of part_000 (second section, lines 1851-1880): the
eight neighbour squares, then - when canCastle approves - it pushes
[row, col], the king's own current square, for both the kingside and the
queenside case. -/
def getKingMove (s : GState) (pos : Pos) : List Pos × GState :=
  match getPiecePositionOnVirtualBoard s.board pos with
  | none => ([], s)
  | some piece =>
    let normal : List Pos :=
      ([((-1 : Int), (-1 : Int)), (-1, 0), (-1, 1), (0, -1), (0, 1),
        (1, -1), (1, 0), (1, 1)] : List (Int × Int)).filterMap
        (fun d =>
          let q : Pos := (pos.1 + d.1, pos.2 + d.2)
          if isValidBoardPosition q.1 q.2 then
            match getPiecePositionOnVirtualBoard s.board q with
            | none => some q
            | some t => if t.color = piece.color then none else some q
          else none)
    let ck := canCastle s pos (pos.1, 6) piece.color
    let m1 := if ck.1 then normal ++ [pos] else normal
    let cq := canCastle ck.2 pos (pos.1, 2) piece.color
    (if cq.1 then m1 ++ [pos] else m1, cq.2)

end P

/-- Modelled from the spec, section 4.4: "simulate by recording the piece
currently at from and any piece at to, write null to from and the moving piece
to to, update kingSquare[color] if a king moved, rebuild the AttackMap,
evaluate isInCheck(color) against the rebuilt map".  Stated as a pure
function of the input state; used to compare the two isMoveSafe
implementations against the spec's words. -/
def isMoveSafeSpec (s : GState) (fromP toP : Pos) (color : Color) : Bool :=
  let movedPiece := s.board fromP
  let simBoard := setBoard (setBoard s.board fromP none) toP movedPiece
  let kingP : Pos :=
    if movedPiece.map Piece.type = some PieceType.king then toP else s.kingPos color
  let rebuilt := updateAttackBoardPosition simBoard
  ! rebuilt kingP color.opponent

/-- Modelled from the spec, section 4.6: "isCheckmate(color) = isInCheck(color)
AND no legal move exists for any piece of that color (including the king) that
passes the Legality Filter".  The legality filter is isMoveSafeSpec (section
4.4); pseudo-legal moves are the script.js generators.  script.js's own
isCheckmate body is an unimplemented TODO that this definition is compared
against. -/
def isCheckmateSpec (s : GState) (color : Color) : Bool :=
  isKingInCheck s color &&
    squares8.all
      (fun q =>
        match s.board q with
        | some p =>
          if p.color = color then
            (S.getPossibleMoves s q p).all (fun m => ! isMoveSafeSpec s q m color)
          else true
        | none => true)

/-- A finite board description, for the concrete positions in the theorems. -/
def boardOfList (entries : List (Pos × Piece)) : Board :=
  fun q => (entries.find? (fun e => decide (e.1 = q))).map Prod.snd

def wPawn : Piece := ⟨.pawn, .white⟩
def wRook : Piece := ⟨.rook, .white⟩
def wBishop : Piece := ⟨.bishop, .white⟩
def wQueen : Piece := ⟨.queen, .white⟩
def wKing : Piece := ⟨.king, .white⟩
def bPawn : Piece := ⟨.pawn, .black⟩
def bRook : Piece := ⟨.rook, .black⟩
def bKing : Piece := ⟨.king, .black⟩

/-- Fold a list of from/to attempts through the script.js pipeline. -/
def runMoves (s : GState) (moves : List (Pos × Pos)) : Option GState :=
  moves.foldlM (fun st mv => S.validateMove st mv.1 mv.2) s

/-- Number of kings of a colour on the board. -/
def kingCount (b : Board) (c : Color) : Nat :=
  (squares8.filter
    (fun q =>
      match b q with
      | some p => decide (p.type = .king ∧ p.color = c)
      | none => false)).length

/-- C1 probe: white rook a1, white king e1, black king e8; fresh attack board. -/
def c1State : GState :=
  { board := boardOfList [((7, 0), wRook), ((7, 4), wKing), ((0, 4), bKing)]
    attack := emptyAttackBoard
    currentPlayer := .white
    kingWhite := (7, 4)
    kingBlack := (0, 4)
    lastPawnDoubleMove := none
    enPassantPosition := none
    promotionPending := none }

/-- C2 probe: white king e1 in check from the black rook on e8; white pawn a2;
ATTACK_BOARD empty, exactly as script.js maintains it. -/
def c2State : GState :=
  { board := boardOfList [((7, 4), wKing), ((6, 0), wPawn), ((0, 4), bRook), ((0, 0), bKing)]
    attack := emptyAttackBoard
    currentPlayer := .white
    kingWhite := (7, 4)
    kingBlack := (0, 0)
    lastPawnDoubleMove := none
    enPassantPosition := none
    promotionPending := none }

/-- Scenario E of the spec: black king e8 attacked by the white queen on e1
along the open e-file; black pawns d7/f7; white bishops b6/h6 cover d8 and f8;
white king h2.  Black has no legal reply.  The attack board is the honest
rebuild of this position. -/
def scenarioEBoard : Board :=
  boardOfList [((0, 4), bKing), ((1, 3), bPawn), ((1, 5), bPawn),
    ((7, 4), wQueen), ((2, 1), wBishop), ((2, 7), wBishop), ((6, 7), wKing)]

def scenarioE : GState :=
  { board := scenarioEBoard
    attack := updateAttackBoardPosition scenarioEBoard
    currentPlayer := .black
    kingWhite := (6, 7)
    kingBlack := (0, 4)
    lastPawnDoubleMove := none
    enPassantPosition := none
    promotionPending := none }

/-- C7 probe: black pawn c2 one step from the last rank, black to move. -/
def c7State : GState :=
  { board := boardOfList [((6, 2), bPawn), ((7, 7), wKing), ((0, 0), bKing)]
    attack := emptyAttackBoard
    currentPlayer := .black
    kingWhite := (7, 7)
    kingBlack := (0, 0)
    lastPawnDoubleMove := none
    enPassantPosition := none
    promotionPending := none }

/-- C8 probe: white king e1 and rook h1 on their home squares, f1/g1 empty,
black king e8; a position where kingside castling is approved. -/
def castleProbeState : GState :=
  { board := boardOfList [((7, 4), wKing), ((7, 7), wRook), ((0, 4), bKing)]
    attack := emptyAttackBoard
    currentPlayer := .white
    kingWhite := (7, 4)
    kingBlack := (0, 4)
    lastPawnDoubleMove := none
    enPassantPosition := none
    promotionPending := none }

/-- C10 probe: a board with a white pawn sitting on the last rank (a8). -/
def c10Board : Board :=
  boardOfList [((0, 0), wPawn), ((7, 7), wKing), ((0, 7), bKing)]

/-- C4: seven committed opening moves after which the white king steps e1-e2. -/
def c4MovesFirst7 : List (Pos × Pos) :=
  [((6, 4), (4, 4)), ((1, 0), (2, 0)), ((7, 6), (5, 5)), ((1, 1), (2, 1)),
   ((7, 5), (4, 2)), ((1, 2), (2, 2)), ((7, 4), (6, 4))]

/-- C4: the same, plus a black reply and the white king stepping back e2-e1. -/
def c4MovesAll : List (Pos × Pos) :=
  c4MovesFirst7 ++ [((1, 3), (2, 3)), ((6, 4), (7, 4))]

/-- C5: white double-advances e2-e4; six further single-step pawn moves are
committed (black walks the d-pawn to d4) without any en-passant capture. -/
def c5Moves : List (Pos × Pos) :=
  [((6, 4), (4, 4)), ((1, 3), (2, 3)), ((6, 0), (5, 0)), ((2, 3), (3, 3)),
   ((6, 1), (5, 1)), ((3, 3), (4, 3)), ((6, 7), (5, 7))]

/-- C9: 1. e4 f6 2. Qh5 a6 3. Qxe8 - the white queen captures the black king,
every step passing isValidateMove and isMoveSafe of script.js. -/
def c9Moves : List (Pos × Pos) :=
  [((6, 4), (4, 4)), ((1, 5), (2, 5)), ((7, 3), (3, 7)), ((1, 0), (2, 0)),
   ((3, 7), (0, 4))]

/-- C1: isMoveSafe of part_000 does not leave the AttackMap as it was.  On a
board with only a white rook a1, white king e1 and black king e8, simulating
the rook move a1-a2 restores the Board cells (a1 holds the rook again, a2 is
empty) and the move is reported safe, but the returned state's ATTACK_BOARD
marks (6,1) as attacked by white - the rebuild from the simulated position was
never undone, while before the call (6,1) was unattacked. -/
theorem c1_attack_map_not_restored :
    ((P.isMoveSafe c1State (7, 0) (6, 0) Color.white).map
        (fun r => (r.1, r.2.board ((7 : Int), (0 : Int)), r.2.board ((6 : Int), (0 : Int)),
          r.2.attack ((6 : Int), (1 : Int)) Color.white))
      = some (true, some wRook, none, true))
    ∧ c1State.attack ((6 : Int), (1 : Int)) Color.white = false := by
  constructor <;> decide

/-- C2 counterexample: script.js's isMoveSafe does not decide against a rebuilt
AttackMap.  In c2State the white king on e1 stands on the black rook's open
file; the pawn move a2-a3 leaves the king in check against the rebuilt map
(isMoveSafeSpec is false), yet script.js's isMoveSafe returns true because it
reads the ATTACK_BOARD as it stood before the call, which script.js never
rebuilds. -/
theorem c2_stale_attack_map :
    (S.isMoveSafe c2State (6, 0) (5, 0) Color.white).map Prod.fst = some true
    ∧ isMoveSafeSpec c2State (6, 0) (5, 0) Color.white = false := by
  constructor <;> decide

/-- C3: executeMove of script.js commits a move without recomputing the
AttackMap.  Committing the opening double advance e2-e4 switches the player
but leaves the ATTACK_BOARD exactly as initialized (the square d5 the moved
pawn now attacks is still unmarked), while a from-scratch rebuild of the
post-move board marks it; the check evaluation of step 6 therefore reads a
stale map. -/
theorem c3_commit_skips_attack_rebuild :
    (S.executeMove initialState (6, 4) (4, 4) wPawn).attack ((3 : Int), (3 : Int))
        Color.white = false
    ∧ updateAttackBoardPosition (S.executeMove initialState (6, 4) (4, 4) wPawn).board
        ((3 : Int), (3 : Int)) Color.white = true
    ∧ (S.executeMove initialState (6, 4) (4, 4) wPawn).currentPlayer = Color.black := by
  refine ⟨?_, ?_, ?_⟩ <;> decide

/-- C4: a king that moved away and returned regains castling rights.  Running
the nine attempts of c4MovesAll through validateMove from the start position
commits all of them; after the seventh the white king stands on e2 (e1 empty),
after the ninth it is back on e1 and canCastle approves kingside castling,
because the right is inferred from square equality instead of a moved flag. -/
theorem c4_castling_rights_regained :
    (runMoves initialState c4MovesFirst7).map
        (fun s => (s.board ((6 : Int), (4 : Int)), s.board ((7 : Int), (4 : Int))))
      = some (some wKing, none)
    ∧ (runMoves initialState c4MovesAll).map
        (fun s => (S.canCastle s (7, 4) (7, 6) Color.white, s.board ((7 : Int), (4 : Int))))
      = some (true, some wKing) := by
  constructor <;> decide

/-- C5: the en-passant right is never cleared.  After white's double advance
e2-e4 six further moves by other pieces are committed; lastPawnDoubleMove still
records the white pawn on (4,4), and the generator still produces the
en-passant destination (5,4) for the black pawn on (4,3), six plies after the
double advance. -/
theorem c5_en_passant_right_persists :
    (runMoves initialState c5Moves).map
        (fun s => (S.canEnPassant s.board s.lastPawnDoubleMove (4, 3),
          s.lastPawnDoubleMove, s.board ((4 : Int), (4 : Int)), s.board ((4 : Int), (3 : Int))))
      = some ([(5, 4)], some ⟨Color.white, [(4, 4)]⟩, some wPawn, some bPawn) := by
  decide

/-- C6: in the Scenario E position (black king e8 attacked by the white queen
on e1 along the open e-file, no black reply passes the legality filter) the
spec's checkmate predicate holds, but script.js's isCheckmate returns no value
at all - its body is a TODO stub. -/
theorem c6_checkmate_unimplemented :
    isCheckmateSpec scenarioE Color.black = true ∧ S.isCheckmate Color.black = none :=
  ⟨by decide, rfl⟩

/-- C7 counterexample: a promotion-triggering attempt suspends the pipeline
(the pawn stays on (6,2), the destination stays empty, the turn does not
switch) but promotionPending is still none afterwards - the field exists in
GameState and is never written by any function. -/
theorem c7_promotion_pending_never_set :
    (S.validateMove c7State (6, 2) (7, 2)).map
        (fun s => (s.promotionPending, s.board ((6 : Int), (2 : Int)),
          s.board ((7 : Int), (2 : Int)), s.currentPlayer))
      = some (none, some bPawn, none, Color.black) := by
  decide

/-- C8: the part_000 king-move generator pushes the king's own square as the
castling destination.  In castleProbeState its canCastle approves kingside
castling, yet its getKingMove omits the g-file square (7,6) and instead
contains the king's current square (7,4); script.js's getKingMove on the same
state contains (7,6). -/
theorem c8_castle_move_is_own_square :
    (P.canCastle castleProbeState (7, 4) (7, 6) Color.white).1 = true
    ∧ ((7 : Int), (6 : Int)) ∉ (P.getKingMove castleProbeState (7, 4)).1
    ∧ ((7 : Int), (4 : Int)) ∈ (P.getKingMove castleProbeState (7, 4)).1
    ∧ ((7 : Int), (6 : Int)) ∈ S.getKingMove castleProbeState (7, 4) := by
  refine ⟨?_, ?_, ?_, ?_⟩ <;> decide

/-- C9: a committed move removes a king.  The five attempts of c9Moves all pass
validateMove from the start position (script.js's isMoveSafe is vacuous
because the ATTACK_BOARD is never written), and the last one commits the white
queen's capture of the black king: afterwards e8 holds the white queen and no
black king remains on the board. -/
theorem c9_king_captured_reachable :
    (runMoves initialState c9Moves).map
        (fun s => (kingCount s.board Color.black, s.board ((0 : Int), (4 : Int))))
      = some (0, some wQueen) := by
  decide

/-- C10 counterexample: for a white pawn standing on the last rank (0,0),
getPawnMove emits the off-board square (-1,0): hasPieceAtPosition returns
false for the out-of-range forward square, so it is pushed unchecked. -/
theorem c10_off_board_forward_square :
    ((-1 : Int), (0 : Int)) ∈ S.getPawnMove c10Board none (0, 0)
    ∧ isValidBoardPosition (-1) 0 = false := by
  constructor <;> decide

/-- Unfolding lemma for the board-position bound check. -/
theorem isValidBoardPosition_iff (r c : Int) :
    isValidBoardPosition r c = true ↔ 0 ≤ r ∧ r < 8 ∧ 0 ≤ c ∧ c < 8 := by
  simp [isValidBoardPosition, and_assoc]

/-- C2: the part_000 iteration of isMoveSafe returns exactly the spec's
verdict: simulate the move, rebuild the AttackMap from the simulated board,
and report safe if and only if the mover's king square (moved along when a
king moves) is not attacked by the opponent in the rebuilt map.  Stated for
every state whose from square is occupied, the situation in which every
caller invokes it. -/
theorem c2_part000_matches_spec (s : GState) (fromP toP : Pos) (color : Color)
    (p : Piece) (h : s.board fromP = some p) :
    (P.isMoveSafe s fromP toP color).map Prod.fst
      = some (isMoveSafeSpec s fromP toP color) := by
  unfold P.isMoveSafe isMoveSafeSpec
  rw [h]
  cases color <;> by_cases hk : p.type = PieceType.king <;>
    simp [hk, isKingInCheck, GState.setKing, GState.kingPos, Color.opponent]

/-- Witness for c2_part000_matches_spec at the c2State pawn move a2-a3. -/
theorem c2_part000_matches_spec_witness :
    c2State.board ((6 : Int), (0 : Int)) = some wPawn
    ∧ (P.isMoveSafe c2State (6, 0) (5, 0) Color.white).map Prod.fst
        = some (isMoveSafeSpec c2State (6, 0) (5, 0) Color.white) :=
  ⟨by decide, c2_part000_matches_spec c2State (6, 0) (5, 0) Color.white wPawn (by decide)⟩

/-- C7: once promotePawn is called with one of the four replacement kinds (and
the mover's king is not flagged in the current attack map, which would hit the
source's undefined-identifier branch), the move commits: the destination square
holds the chosen piece in the mover's colour and the turn passes to the
opponent. -/
theorem c7_promote_pawn_commits (s : GState) (fromP toP : Pos) (kind : PieceType)
    (hkind : kind = PieceType.queen ∨ kind = PieceType.rook ∨ kind = PieceType.bishop ∨
      kind = PieceType.knight)
    (hchk : s.attack (s.kingPos s.currentPlayer) s.currentPlayer.opponent = false) :
    (S.promotePawn s kind fromP toP).map (fun s2 => (s2.board toP, s2.currentPlayer))
      = some (some ⟨kind, s.currentPlayer⟩, s.currentPlayer.opponent) := by
  rcases hkind with hq | hq | hq | hq <;> subst hq <;>
    cases hcp : s.currentPlayer <;>
      simp only [hcp, GState.kingPos, Color.opponent] at hchk <;>
        simp [S.promotePawn, S.executeMove, S.setLastPawnDoubleMove, isKingInCheck,
          GState.setKing, GState.kingPos, Color.opponent, setBoard, hcp, hchk]

/-- Witness for c7_promote_pawn_commits: promoting the black pawn of c7State
to a queen on (7,2). -/
theorem c7_promote_pawn_commits_witness :
    c7State.attack (c7State.kingPos c7State.currentPlayer) c7State.currentPlayer.opponent
        = false
    ∧ (S.promotePawn c7State PieceType.queen (6, 2) (7, 2)).map
        (fun s2 => (s2.board (7, 2), s2.currentPlayer))
      = some (some ⟨PieceType.queen, c7State.currentPlayer⟩, c7State.currentPlayer.opponent) :=
  ⟨by decide, c7_promote_pawn_commits c7State (6, 2) (7, 2) PieceType.queen (Or.inl rfl)
    (by decide)⟩

/-- C10: for every board, every en-passant record and every pawn that is not
standing on its final rank (white pawns on row 1 or below the start, black
pawns on row 6 or above - equivalently, rows from which the forward step stays
on the board), every square produced by getPawnMove lies inside the board. -/
theorem c10_pawn_moves_on_board (b : Board) (lastD : Option LastDouble) (row col : Int)
    (p : Piece) (hb : getPiecePositionOnVirtualBoard b (row, col) = some p)
    (hw : p.color = Color.white → 1 ≤ row) (hbl : p.color = Color.black → row ≤ 6) :
    ∀ m ∈ S.getPawnMove b lastD (row, col), isValidBoardPosition m.1 m.2 = true := by
  have hvalid : isValidBoardPosition row col = true := by
    cases hv : isValidBoardPosition row col
    · rw [getPiecePositionOnVirtualBoard] at hb
      simp [hv] at hb
    · rfl
  obtain ⟨hr0, hr8, hc0, hc8⟩ := (isValidBoardPosition_iff row col).mp hvalid
  intro m hm
  rw [S.getPawnMove] at hm
  rw [hb] at hm
  rw [isValidBoardPosition_iff]
  rw [S.canEnPassant] at hm
  rw [hb] at hm
  simp only [List.mem_append] at hm
  cases hcol : p.color <;> simp [hcol] at hm hw hbl <;>
    rcases hm with (⟨-, rfl | ⟨⟨hrow, -⟩, rfl⟩⟩ | ⟨-, hv, -⟩) | ⟨-, hep⟩
  · -- white, single advance
    dsimp only
    omega
  · -- white, double advance from the starting rank
    dsimp only
    omega
  · -- white, diagonal captures carry their own bounds check
    exact (isValidBoardPosition_iff m.1 m.2).mp hv
  · -- white, en passant
    split at hep
    · simp at hep
    · split at hep
      · rename_i hrow
        rw [List.mem_filterMap] at hep
        obtain ⟨adjCol, -, heq⟩ := hep
        split at heq
        · rename_i hva
          obtain ⟨-, -, ha0, ha8⟩ := (isValidBoardPosition_iff row adjCol).mp hva
          split at heq
          · split at heq
            · rw [Option.some.injEq] at heq
              subst heq
              dsimp only
              omega
            · simp at heq
          · simp at heq
        · simp at heq
      · simp at hep
  · -- black, single advance
    dsimp only
    omega
  · -- black, double advance from the starting rank
    dsimp only
    omega
  · -- black, diagonal captures
    exact (isValidBoardPosition_iff m.1 m.2).mp hv
  · -- black, en passant
    split at hep
    · simp at hep
    · split at hep
      · rename_i hrow
        rw [List.mem_filterMap] at hep
        obtain ⟨adjCol, -, heq⟩ := hep
        split at heq
        · rename_i hva
          obtain ⟨-, -, ha0, ha8⟩ := (isValidBoardPosition_iff row adjCol).mp hva
          split at heq
          · split at heq
            · rw [Option.some.injEq] at heq
              subst heq
              dsimp only
              omega
            · simp at heq
          · simp at heq
        · simp at heq
      · simp at hep

/-- Witness for c10_pawn_moves_on_board at the start-position pawn e2. -/
theorem c10_pawn_moves_on_board_witness :
    getPiecePositionOnVirtualBoard initialBoard ((6 : Int), (4 : Int)) = some wPawn
    ∧ ∀ m ∈ S.getPawnMove initialBoard none ((6 : Int), (4 : Int)),
        isValidBoardPosition m.1 m.2 = true :=
  ⟨by decide,
   c10_pawn_moves_on_board initialBoard none 6 4 wPawn (by decide)
     (fun _ => by decide) (fun _ => by decide)⟩

end Chess
